import Mathlib

/-!
Shallow embedding of the Tello flight-control program (FlightControl.py,
main.py) and verification of its specified behaviour.

Modelling choices:
 - Python integers become Int, wall-clock timestamps (floats from
   time.time()) become ℚ, key identifiers become String.
 - The mutable object state of class FlightControl becomes the structure
   FCState; the mutable velocity fields of the Tello SDK object become the
   structure TelloState.
 - Side effects on the device and filesystem (frame capture to file,
   rotation commands, send_rc_control, takeoff, land) become an explicit
   event trace of type List Event produced alongside the updated state.
 - Device calls that return a result (rotate_clockwise and
   rotate_counter_clockwise) receive their result from an oracle
   res : ℕ → Int, so theorems quantify over every possible device outcome.
 - time.sleep and print have no observable effect on the modelled state and
   are omitted.
-/

/-- Velocity-related mutable fields of the Tello SDK object, as written by
FlightControl (front_back_velocity, left_right_velocity, up_down_velocity,
yaw_velocity, speed). -/
structure TelloState where
  front_back_velocity : Int
  left_right_velocity : Int
  up_down_velocity : Int
  yaw_velocity : Int
  speed : Int
  deriving Repr, DecidableEq

/-- Observable side effects on the device and the filesystem. -/
inductive Event where
  | snapWrite (folder : String)
  | rotateCCW (deg : Int)
  | rotateCW (deg : Int)
  | sendRC (lr fb ud yaw : Int)
  | takeoff
  | land
  deriving Repr, DecidableEq

/-- Mutable state of the FlightControl object (fields of __init__ that the
modelled methods read or write; outputDir, frame and the unused
panoramaQueue and videoOutputName carry no control state and are omitted). -/
structure FCState where
  tello : TelloState
  snapOrdered : Bool
  videoOrdered : Bool
  ActionStack : List (String × ℚ)
  panoramaOrdered : Bool
  panoramaDeg : Int
  totalPanoramaCaptures : Int
  HeavyMode : Bool
  deriving Repr, DecidableEq

/-- self.FOV = 30, set in __init__ and never reassigned. -/
def FOV : Int := 30

/-- self.timeDifference = 0.2, set in __init__ and never reassigned. -/
def timeDifference : ℚ := 1/5

/-- State after __init__ and init(): empty action stack, all flags false,
all velocities zeroed by setAllVelocity(0). -/
def initState : FCState :=
  { tello := { front_back_velocity := 0, left_right_velocity := 0,
               up_down_velocity := 0, yaw_velocity := 0, speed := 0 },
    snapOrdered := false, videoOrdered := false, ActionStack := [],
    panoramaOrdered := false, panoramaDeg := 0,
    totalPanoramaCaptures := 0, HeavyMode := false }

/-- setAllVelocity(val): writes 0 into all five velocity fields; the
argument val is never read. -/
def setAllVelocity (t : TelloState) (val : Int) : TelloState :=
  { t with front_back_velocity := 0, left_right_velocity := 0,
           up_down_velocity := 0, yaw_velocity := 0, speed := 0 }

/-- updateActionTrack(key): appends (key, time.time()) to ActionStack when
key is not None; the timestamp is passed explicitly. -/
def updateActionTrack (s : FCState) (key : Option String) (t : ℚ) : FCState :=
  match key with
  | none => s
  | some k => { s with ActionStack := s.ActionStack ++ [(k, t)] }

/-- checkValidCommand(command): None is always valid; otherwise, when the
stack has at least two entries, the command is invalid exactly when the two
most recent entries carry the same key and their timestamp difference is
below timeDifference. ActionStack[-1] and ActionStack[-2] are read here as
the first two entries of the reversed list. -/
def checkValidCommand (s : FCState) (command : Option String) : Bool :=
  match command with
  | none => true
  | some _ =>
    match s.ActionStack.reverse with
    | last :: second_last :: _ =>
      if last.1 = second_last.1 ∧ last.2 - second_last.2 < timeDifference
      then false else true
    | _ => true

/-- takeSnap(folderName): when snapOrdered is set, writes one image file
and clears the flag; otherwise does nothing. -/
def takeSnap (s : FCState) (folderName : String) : FCState × List Event :=
  if s.snapOrdered then
    ({ s with snapOrdered := false }, [Event.snapWrite folderName])
  else (s, [])

/-- takeSnap_(folderName): unconditionally captures the current frame to a
file in the given folder (called by the panorama sequence). -/
def takeSnapU (folderName : String) : List Event :=
  [Event.snapWrite folderName]

/-- rotate(degrees): zeroes all velocities, then issues
rotate_counter_clockwise(degrees) when degrees is nonnegative and
rotate_clockwise(-1 * degrees) otherwise; returns the device result. -/
def rotate (s : FCState) (degrees : Int) (result : Int) :
    FCState × List Event × Int :=
  let s1 := { s with tello := setAllVelocity s.tello 0 }
  if degrees ≥ 0 then (s1, [Event.rotateCCW degrees], result)
  else (s1, [Event.rotateCW (-1 * degrees)], result)

/-- Body of the for-loop in capturePanorama_: for each of k remaining
iterations, rotate by deg and capture one frame; i indexes the rotate
results drawn from the oracle res. -/
def panoLoop (deg : Int) (res : ℕ → Int) : ℕ → ℕ → FCState → FCState × List Event
  | _, 0, s => (s, [])
  | i, k+1, s =>
    let r1 := rotate s deg (res i)
    let r2 := panoLoop deg res (i+1) k r1.1
    (r2.1, r1.2.1 ++ takeSnapU "panoramas" ++ r2.2)

/-- capturePanorama_(deg_to_rotate, n): capture one frame, then n-1 times
rotate by deg_to_rotate and capture, then one corrective rotation by
-(n - 1) * deg_to_rotate; returns the result of the corrective rotation. -/
def capturePanoramaStep (s : FCState) (deg_to_rotate : Int) (n : Int)
    (res : ℕ → Int) : FCState × List Event × Int :=
  let r := panoLoop deg_to_rotate res 0 (n - 1).toNat s
  let r2 := rotate r.1 (-(n - 1) * deg_to_rotate) (res (n - 1).toNat)
  (r2.1, takeSnapU "panoramas" ++ r.2 ++ r2.2.1, r2.2.2)

/-- Total capture count computed at panorama entry:
max(floor(panoramaDeg / FOV), floor(panoramaDeg / FOV) + 1). -/
def totalCaptures (deg : Int) : Int :=
  max (Int.fdiv deg FOV) (Int.fdiv deg FOV + 1)

/-- Entry phase of capturePanorama (lines 172-180): sets panoramaOrdered
and HeavyMode, maps degree "C" to 180 and "O" to 360, and stores the total
capture count. -/
def capturePanoramaEntry (s : FCState) (degree : String) : FCState :=
  let s1 := { s with panoramaOrdered := true, HeavyMode := true }
  let s2 := if degree = "C" then { s1 with panoramaDeg := 180 }
            else if degree = "O" then { s1 with panoramaDeg := 360 } else s1
  { s2 with totalPanoramaCaptures := totalCaptures s2.panoramaDeg }

/-- capturePanorama(degree): entry phase, then the rotate-and-capture
sequence with deg_to_rotate = FOV, then the exit phase that resets
totalPanoramaCaptures, HeavyMode and panoramaOrdered unconditionally. -/
def capturePanorama (s : FCState) (degree : String) (res : ℕ → Int) :
    FCState × List Event :=
  let s3 := capturePanoramaEntry s degree
  let r := capturePanoramaStep s3 FOV s3.totalPanoramaCaptures res
  ({ r.1 with totalPanoramaCaptures := 0, HeavyMode := false,
              panoramaOrdered := false }, r.2.1)

/-- calculateAction(command): runs the validity check, then dispatches on
the command exactly as the elif chain does; an invalid command leaves the
state untouched and produces no device call. -/
def calculateAction (s : FCState) (command : Option String) (res : ℕ → Int) :
    FCState × List Event :=
  if checkValidCommand s command then
    match command with
    | none => ({ s with tello := setAllVelocity s.tello 0 }, [])
    | some c =>
      if c = "s" then (s, [Event.takeoff])
      else if c = "up" then
        ({ s with tello := { s.tello with up_down_velocity := 60 } }, [])
      else if c = "down" then
        ({ s with tello := { s.tello with up_down_velocity := -60 } }, [])
      else if c = "left" then
        ({ s with tello := { s.tello with yaw_velocity := -60 } }, [])
      else if c = "right" then
        ({ s with tello := { s.tello with yaw_velocity := 60 } }, [])
      else if c = "a" then
        ({ s with tello := { s.tello with left_right_velocity := -60 } }, [])
      else if c = "d" then
        ({ s with tello := { s.tello with left_right_velocity := 60 } }, [])
      else if c = "w" then
        ({ s with tello := { s.tello with front_back_velocity := 60 } }, [])
      else if c = "z" then
        ({ s with tello := { s.tello with front_back_velocity := -60 } }, [])
      else if c = "p" then takeSnap { s with snapOrdered := true } "snaps"
      else if c = "c" then capturePanorama s "C" res
      else (s, [])
  else (s, [])

/-- takeAction(land): when land is false, sends the current velocity state
via send_rc_control unless HeavyMode is set; when land is true, zeroes all
velocities and lands. -/
def takeAction (s : FCState) (land : Bool) : FCState × List Event :=
  if !land then
    if !s.HeavyMode then
      (s, [Event.sendRC s.tello.left_right_velocity s.tello.front_back_velocity
             s.tello.up_down_velocity s.tello.yaw_velocity])
    else (s, [])
  else
    ({ s with tello := setAllVelocity s.tello 0 }, [Event.land])

/-- The eight single-axis motion commands of the elif chain. -/
def singleAxisCommands : List String :=
  ["up", "down", "left", "right", "a", "d", "w", "z"]

/-- The five velocity fields, for stating frame conditions. -/
inductive Axis where
  | fb | lr | ud | yaw | speed
  deriving Repr, DecidableEq

/-- Read one velocity field. -/
def axisRead (t : TelloState) : Axis → Int
  | Axis.fb => t.front_back_velocity
  | Axis.lr => t.left_right_velocity
  | Axis.ud => t.up_down_velocity
  | Axis.yaw => t.yaw_velocity
  | Axis.speed => t.speed

/-- The velocity field written by a single-axis command. -/
def axisOf : String → Axis
  | "up" => Axis.ud
  | "down" => Axis.ud
  | "left" => Axis.yaw
  | "right" => Axis.yaw
  | "a" => Axis.lr
  | "d" => Axis.lr
  | "w" => Axis.fb
  | "z" => Axis.fb
  | _ => Axis.speed

/-- The value written by a single-axis command. -/
def axisVal : String → Int
  | "up" => 60
  | "down" => -60
  | "left" => -60
  | "right" => 60
  | "a" => -60
  | "d" => 60
  | "w" => 60
  | "z" => -60
  | _ => 0

/-- Iterated takeSnap invocations (repeated flag checks of the control
loop), collecting the files written. -/
def takeSnapRun : FCState → ℕ → FCState × List Event
  | s, 0 => (s, [])
  | s, n+1 =>
    let r1 := takeSnap s "snaps"
    let r2 := takeSnapRun r1.1 n
    (r2.1, r1.2 ++ r2.2)

/-- Update one velocity field, leaving the rest untouched. -/
def axisWrite (t : TelloState) (v : Int) : Axis → TelloState
  | Axis.fb => { t with front_back_velocity := v }
  | Axis.lr => { t with left_right_velocity := v }
  | Axis.ud => { t with up_down_velocity := v }
  | Axis.yaw => { t with yaw_velocity := v }
  | Axis.speed => { t with speed := v }

theorem rotate_fst (s : FCState) (degrees result : Int) :
    (rotate s degrees result).1 = { s with tello := setAllVelocity s.tello 0 } := by
  unfold rotate
  split <;> rfl

theorem panoLoop_HeavyMode (deg : Int) (res : ℕ → Int) :
    ∀ (k i : ℕ) (s : FCState), (panoLoop deg res i k s).1.HeavyMode = s.HeavyMode
  | 0, _, _ => rfl
  | k+1, i, s => by
    show (panoLoop deg res (i+1) k (rotate s deg (res i)).1).1.HeavyMode = s.HeavyMode
    rw [panoLoop_HeavyMode deg res k (i+1) (rotate s deg (res i)).1, rotate_fst]

theorem takeSnapRun_idle (s : FCState) (m : ℕ) (h : s.snapOrdered = false) :
    takeSnapRun s m = (s, []) := by
  induction m with
  | zero => rfl
  | succ n ih =>
    show (let r1 := takeSnap s "snaps"
          let r2 := takeSnapRun r1.1 n
          (r2.1, r1.2 ++ r2.2)) = (s, [])
    simp only [takeSnap, h, if_false, Bool.false_eq_true, ite_false]
    simpa using ih

theorem calculateAction_single (s : FCState) (c : String) (res : ℕ → Int)
    (hc : c ∈ singleAxisCommands) (hv : checkValidCommand s (some c) = true) :
    calculateAction s (some c) res =
      ({ s with tello := axisWrite s.tello (axisVal c) (axisOf c) }, []) := by
  have h8 : c = "up" ∨ c = "down" ∨ c = "left" ∨ c = "right" ∨
      c = "a" ∨ c = "d" ∨ c = "w" ∨ c = "z" := by
    simpa [singleAxisCommands] using hc
  rcases h8 with rfl | rfl | rfl | rfl | rfl | rfl | rfl | rfl <;>
    (unfold calculateAction; rw [hv]; rfl)

theorem axisRead_axisWrite_same (t : TelloState) (v : Int) (ax : Axis) :
    axisRead (axisWrite t v ax) ax = v := by
  cases ax <;> rfl

theorem axisRead_axisWrite_other (t : TelloState) (v : Int) (ax ax' : Axis)
    (h : ax' ≠ ax) : axisRead (axisWrite t v ax) ax' = axisRead t ax' := by
  cases ax <;> cases ax' <;> first | rfl | exact absurd rfl h

/-- C10: setAllVelocity writes 0 into all five velocity fields and never
reads its argument, so every caller that passes a nonzero value still gets
a full zero reset. -/
theorem setAllVelocity_ignores_val (t : TelloState) (val : Int) :
    setAllVelocity t val =
      { front_back_velocity := 0, left_right_velocity := 0,
        up_down_velocity := 0, yaw_velocity := 0, speed := 0 } ∧
    ∀ val' : Int, setAllVelocity t val = setAllVelocity t val' :=
  ⟨rfl, fun _ => rfl⟩

/-- C9: the None observation is always judged valid, and calculateAction on
None zeroes every velocity field including speed. -/
theorem none_command_resets (s : FCState) (res : ℕ → Int) :
    checkValidCommand s none = true ∧
    (calculateAction s none res).1.tello.front_back_velocity = 0 ∧
    (calculateAction s none res).1.tello.left_right_velocity = 0 ∧
    (calculateAction s none res).1.tello.up_down_velocity = 0 ∧
    (calculateAction s none res).1.tello.yaw_velocity = 0 ∧
    (calculateAction s none res).1.tello.speed = 0 :=
  ⟨rfl, rfl, rfl, rfl, rfl, rfl⟩

/-- C8: whatever the device answers during the sequence, capturePanorama
returns with HeavyMode cleared, totalPanoramaCaptures reset to 0 and
panoramaOrdered cleared. -/
theorem capturePanorama_exit_flags (s : FCState) (degree : String)
    (res : ℕ → Int) :
    (capturePanorama s degree res).1.HeavyMode = false ∧
    (capturePanorama s degree res).1.totalPanoramaCaptures = 0 ∧
    (capturePanorama s degree res).1.panoramaOrdered = false :=
  ⟨rfl, rfl, rfl⟩

/-- C3: with HeavyMode set, a velocity flush is a complete no-op; a
send_rc_control event can only arise from a state with HeavyMode false;
the panorama entry state always has HeavyMode set and the rotate-capture
sequence never changes it, so the flag holds for the whole sequence. -/
theorem heavyMode_blocks_flush (s : FCState) (h : s.HeavyMode = true) :
    takeAction s false = (s, []) ∧
    (∀ (s' : FCState) (land : Bool) (lr fb ud yaw : Int),
        Event.sendRC lr fb ud yaw ∈ (takeAction s' land).2 →
        s'.HeavyMode = false) ∧
    (∀ (s' : FCState) (degree : String),
        (capturePanoramaEntry s' degree).HeavyMode = true) ∧
    (∀ (s' : FCState) (deg n : Int) (res : ℕ → Int),
        (capturePanoramaStep s' deg n res).1.HeavyMode = s'.HeavyMode) := by
  refine ⟨by simp [takeAction, h], ?_, ?_, ?_⟩
  · intro s' land lr fb ud yaw hm
    cases land
    · cases hh : s'.HeavyMode
      · rfl
      · simp [takeAction, hh] at hm
    · simp [takeAction] at hm
  · intro s' degree
    simp only [capturePanoramaEntry]
    split_ifs <;> rfl
  · intro s' deg n res
    show (rotate (panoLoop deg res 0 (n - 1).toNat s').1
        (-(n - 1) * deg) (res (n - 1).toNat)).1.HeavyMode = s'.HeavyMode
    rw [rotate_fst]
    exact panoLoop_HeavyMode deg res (n - 1).toNat 0 s'

/-- Witness for C3 at a concrete heavy state. -/
theorem heavyMode_blocks_flush_witness :
    takeAction { initState with HeavyMode := true } false =
      ({ initState with HeavyMode := true }, []) :=
  (heavyMode_blocks_flush { initState with HeavyMode := true } rfl).1

/-- C7: once snapOrdered is set, a run of n+1 takeSnap flag checks writes
exactly one file and ends with the flag cleared; any run starting with the
flag clear writes nothing and changes nothing. -/
theorem snapOrdered_single_write (s : FCState) (n : ℕ)
    (h : s.snapOrdered = true) :
    (takeSnapRun s (n + 1)).2 = [Event.snapWrite "snaps"] ∧
    (takeSnapRun s (n + 1)).1.snapOrdered = false ∧
    (∀ (s' : FCState) (m : ℕ), s'.snapOrdered = false →
        (takeSnapRun s' m).1 = s' ∧ (takeSnapRun s' m).2 = []) := by
  have hfirst : takeSnap s "snaps" =
      ({ s with snapOrdered := false }, [Event.snapWrite "snaps"]) := by
    simp [takeSnap, h]
  have hrest : takeSnapRun { s with snapOrdered := false } n =
      ({ s with snapOrdered := false }, []) :=
    takeSnapRun_idle _ n rfl
  have hmain : takeSnapRun s (n + 1) =
      ({ s with snapOrdered := false }, [Event.snapWrite "snaps"]) := by
    simp only [takeSnapRun, hfirst]
    rw [hrest]
    rfl
  refine ⟨by rw [hmain], by rw [hmain], ?_⟩
  intro s' m h'
  exact ⟨by rw [takeSnapRun_idle s' m h'], by rw [takeSnapRun_idle s' m h']⟩

/-- Witness for C7: a request followed by two flag checks writes once. -/
theorem snapOrdered_single_write_witness :
    (takeSnapRun { initState with snapOrdered := true } 2).2 =
      [Event.snapWrite "snaps"] ∧
    (takeSnapRun { initState with snapOrdered := true } 2).1.snapOrdered =
      false :=
  ⟨(snapOrdered_single_write { initState with snapOrdered := true } 1 rfl).1,
   (snapOrdered_single_write { initState with snapOrdered := true } 1
      rfl).2.1⟩

/-- C6: every accepted single-axis command writes plus or minus 60 into
exactly the field named by the command and leaves the other four velocity
fields at their prior values. -/
theorem single_axis_sets_one_field (s : FCState) (c : String) (res : ℕ → Int)
    (hc : c ∈ singleAxisCommands)
    (hv : checkValidCommand s (some c) = true) :
    (axisVal c = 60 ∨ axisVal c = -60) ∧
    axisRead (calculateAction s (some c) res).1.tello (axisOf c) = axisVal c ∧
    ∀ ax : Axis, ax ≠ axisOf c →
      axisRead (calculateAction s (some c) res).1.tello ax =
        axisRead s.tello ax := by
  have hcalc := calculateAction_single s c res hc hv
  refine ⟨?_, ?_, ?_⟩
  · have h8 : c = "up" ∨ c = "down" ∨ c = "left" ∨ c = "right" ∨
        c = "a" ∨ c = "d" ∨ c = "w" ∨ c = "z" := by
      simpa [singleAxisCommands] using hc
    rcases h8 with rfl | rfl | rfl | rfl | rfl | rfl | rfl | rfl <;>
      first | exact Or.inl rfl | exact Or.inr rfl
  · rw [hcalc]
    exact axisRead_axisWrite_same s.tello (axisVal c) (axisOf c)
  · intro ax hax
    rw [hcalc]
    exact axisRead_axisWrite_other s.tello (axisVal c) (axisOf c) ax hax

/-- Witness for C6 at the concrete command "up" from the initial state. -/
theorem single_axis_sets_one_field_witness :
    axisRead (calculateAction initState (some "up") (fun _ => 0)).1.tello
      (axisOf "up") = axisVal "up" ∧
    axisRead (calculateAction initState (some "up") (fun _ => 0)).1.tello
      Axis.lr = axisRead initState.tello Axis.lr :=
  ⟨(single_axis_sets_one_field initState "up" (fun _ => 0) (by decide)
      rfl).2.1,
   (single_axis_sets_one_field initState "up" (fun _ => 0) (by decide)
      rfl).2.2 Axis.lr (by decide)⟩

/-- C5 fails on the code: from the initial state, the accepted command
"up" followed by the accepted command "a" leaves two axes nonzero at once
(up_down 60 and left_right -60), because orthogonal commands are combined
rather than reset. -/
theorem two_axes_nonzero_cex :
    checkValidCommand initState (some "up") = true ∧
    checkValidCommand (calculateAction initState (some "up")
      (fun _ => 0)).1 (some "a") = true ∧
    (calculateAction (calculateAction initState (some "up") (fun _ => 0)).1
      (some "a") (fun _ => 0)).1.tello.up_down_velocity = 60 ∧
    (calculateAction (calculateAction initState (some "up") (fun _ => 0)).1
      (some "a") (fun _ => 0)).1.tello.left_right_velocity = -60 :=
  ⟨rfl, rfl, rfl, rfl⟩

/-- C5 amended: after an accepted single-axis command, the commanded axis
holds exactly the value of that most recent command (last-command-wins on
that axis), while every other velocity field retains its prior value - so
distinct axes armed by earlier commands may remain nonzero alongside it. -/
theorem last_command_wins (s : FCState) (c : String) (res : ℕ → Int)
    (hc : c ∈ singleAxisCommands)
    (hv : checkValidCommand s (some c) = true) :
    axisRead (calculateAction s (some c) res).1.tello (axisOf c) =
      axisVal c ∧
    ∀ ax : Axis, ax ≠ axisOf c →
      axisRead (calculateAction s (some c) res).1.tello ax =
        axisRead s.tello ax := by
  have hcalc := calculateAction_single s c res hc hv
  refine ⟨?_, ?_⟩
  · rw [hcalc]
    exact axisRead_axisWrite_same s.tello (axisVal c) (axisOf c)
  · intro ax hax
    rw [hcalc]
    exact axisRead_axisWrite_other s.tello (axisVal c) (axisOf c) ax hax

/-- Witness for the amended C5 at the concrete command "d". -/
theorem last_command_wins_witness :
    axisRead (calculateAction initState (some "d") (fun _ => 0)).1.tello
      (axisOf "d") = axisVal "d" ∧
    axisRead (calculateAction initState (some "d") (fun _ => 0)).1.tello
      Axis.fb = axisRead initState.tello Axis.fb :=
  ⟨(last_command_wins initState "d" (fun _ => 0) (by decide) rfl).1,
   (last_command_wins initState "d" (fun _ => 0) (by decide) rfl).2
      Axis.fb (by decide)⟩

/-- C2: when the action log ends in the consecutive pair a then b, the next
command is judged invalid exactly when b repeats the key of a with a
timestamp difference below timeDifference; appending is unconditional for
non-None keys, and a rejected command has no effect. -/
theorem debounce_iff (s : FCState) (pre : List (String × ℚ))
    (a b : String × ℚ) (cmd : String)
    (h : s.ActionStack = pre ++ [a, b]) :
    (checkValidCommand s (some cmd) = false ↔
      b.1 = a.1 ∧ b.2 - a.2 < timeDifference) ∧
    (∀ (s' : FCState) (k : String) (t : ℚ),
        (updateActionTrack s' (some k) t).ActionStack =
          s'.ActionStack ++ [(k, t)]) ∧
    (∀ (s' : FCState) (c : String) (res : ℕ → Int),
        checkValidCommand s' (some c) = true ∨
          calculateAction s' (some c) res = (s', [])) := by
  refine ⟨?_, fun s' k t => rfl, ?_⟩
  · have hrev : s.ActionStack.reverse = b :: a :: pre.reverse := by
      rw [h]; simp
    have hval : checkValidCommand s (some cmd) =
        if b.1 = a.1 ∧ b.2 - a.2 < timeDifference then false else true := by
      unfold checkValidCommand
      rw [hrev]
    constructor
    · intro hfalse
      by_contra hcond
      rw [hval, if_neg hcond] at hfalse
      exact Bool.true_eq_false.mp hfalse
    · intro hcond
      rw [hval, if_pos hcond]
  · intro s' c res
    cases hvc : checkValidCommand s' (some c)
    · right
      unfold calculateAction
      rw [hvc]
      rfl
    · left; rfl

/-- Witness for C2 at a concrete two-entry log. -/
theorem debounce_iff_witness :
    checkValidCommand
        { initState with ActionStack := [("p", 0), ("p", 1)] }
        (some "p") = false ↔
      ("p" = "p" ∧ (1 : ℚ) - 0 < timeDifference) :=
  (debounce_iff { initState with ActionStack := [("p", 0), ("p", 1)] }
    [] ("p", 0) ("p", 1) "p" rfl).1

/-- C4 fails on the code: the second appended command is already subject to
the debounce check; two immediate "p" observations at the same timestamp
make checkValidCommand reject the second even though it is one of the very
first two logged commands. -/
theorem second_command_rejected_cex :
    checkValidCommand
      (updateActionTrack (updateActionTrack initState (some "p") 0)
        (some "p") 0)
      (some "p") = false := by
  norm_num [checkValidCommand, updateActionTrack, initState, timeDifference]

/-- C4 amended: a command checked while the log holds at most one entry is
always accepted, and a command checked while the last two log entries carry
differing identifiers is always accepted; only the claim about the second
logged command being exempt from the check fails. -/
theorem first_or_differing_accepted :
    (∀ (s : FCState) (cmd : String), s.ActionStack.length ≤ 1 →
        checkValidCommand s (some cmd) = true) ∧
    (∀ (s : FCState) (cmd : String) (pre : List (String × ℚ))
        (a b : String × ℚ), s.ActionStack = pre ++ [a, b] →
        ¬ b.1 = a.1 → checkValidCommand s (some cmd) = true) := by
  constructor
  · intro s cmd h
    unfold checkValidCommand
    rcases hrev : s.ActionStack.reverse with _ | ⟨x, _ | ⟨y, rest⟩⟩
    · rfl
    · rfl
    · exfalso
      have hlen : s.ActionStack.length = s.ActionStack.reverse.length := by
        simp
      rw [hrev] at hlen
      simp at hlen
      omega
  · intro s cmd pre a b hst hne
    have hrev : s.ActionStack.reverse = b :: a :: pre.reverse := by
      rw [hst]; simp
    have hval : checkValidCommand s (some cmd) =
        if b.1 = a.1 ∧ b.2 - a.2 < timeDifference then false else true := by
      unfold checkValidCommand
      rw [hrev]
    rw [hval, if_neg (fun hcond => hne hcond.1)]

/-- Witness for the amended C4: a one-entry log and a differing pair are
both accepted. -/
theorem first_or_differing_accepted_witness :
    checkValidCommand { initState with ActionStack := [("s", 0)] }
      (some "s") = true ∧
    checkValidCommand
      { initState with ActionStack := [("s", 0), ("p", 0)] }
      (some "p") = true :=
  ⟨first_or_differing_accepted.1
      { initState with ActionStack := [("s", 0)] } "s" (by decide),
   first_or_differing_accepted.2
      { initState with ActionStack := [("s", 0), ("p", 0)] } "p"
      [] ("s", 0) ("p", 0) rfl (by decide)⟩

/-- C1: capturePanorama("C") computes the capture count
max(floor(180/30), floor(180/30)+1) = 7, emits exactly the trace of 7
frame captures interleaved with 6 counter-clockwise rotations of 30
degrees and one final corrective clockwise rotation by 180 degrees (the
device call for a requested rotation of -(7-1)*30 = -180); in general the
count is floor(totalDegrees/FOV)+1 and is never zero for nonnegative
totalDegrees. -/
theorem capturePanorama_C_trace (s : FCState) (res : ℕ → Int) :
    (capturePanorama s "C" res).2 =
      [Event.snapWrite "panoramas",
       Event.rotateCCW 30, Event.snapWrite "panoramas",
       Event.rotateCCW 30, Event.snapWrite "panoramas",
       Event.rotateCCW 30, Event.snapWrite "panoramas",
       Event.rotateCCW 30, Event.snapWrite "panoramas",
       Event.rotateCCW 30, Event.snapWrite "panoramas",
       Event.rotateCCW 30, Event.snapWrite "panoramas",
       Event.rotateCW 180] ∧
    (capturePanoramaEntry s "C").totalPanoramaCaptures = 7 ∧
    (capturePanorama s "C" res).2.count (Event.snapWrite "panoramas") = 7 ∧
    (capturePanorama s "C" res).2.count (Event.rotateCCW 30) = 6 ∧
    (∀ d : Int, totalCaptures d = Int.fdiv d FOV + 1) ∧
    (∀ d : Int, 0 ≤ d → totalCaptures d ≠ 0) := by
  have htrace : (capturePanorama s "C" res).2 =
      [Event.snapWrite "panoramas",
       Event.rotateCCW 30, Event.snapWrite "panoramas",
       Event.rotateCCW 30, Event.snapWrite "panoramas",
       Event.rotateCCW 30, Event.snapWrite "panoramas",
       Event.rotateCCW 30, Event.snapWrite "panoramas",
       Event.rotateCCW 30, Event.snapWrite "panoramas",
       Event.rotateCCW 30, Event.snapWrite "panoramas",
       Event.rotateCW 180] := rfl
  refine ⟨htrace, rfl, ?_, ?_, ?_, ?_⟩
  · rw [htrace]; rfl
  · rw [htrace]; rfl
  · intro d
    unfold totalCaptures
    exact max_eq_right (by omega)
  · intro d hd
    have h1 : 0 ≤ Int.fdiv d FOV := Int.fdiv_nonneg hd (by decide)
    unfold totalCaptures
    rw [max_eq_right (by omega : Int.fdiv d FOV ≤ Int.fdiv d FOV + 1)]
    omega

/-- Witness for C1's general capture-count facts at totalDegrees = 180. -/
theorem capturePanorama_C_trace_witness :
    totalCaptures 180 = Int.fdiv 180 FOV + 1 ∧ totalCaptures 180 ≠ 0 :=
  ⟨(capturePanorama_C_trace initState (fun _ => 0)).2.2.2.2.1 180,
   (capturePanorama_C_trace initState (fun _ => 0)).2.2.2.2.2 180
     (by decide)⟩
